import Mathlib

/-!
Verification of the stranger-beers-app ingestion core: a shallow embedding of
the Tally payload parsing layer (`src/apps/ingestion_api/src/tally/parse.py`),
phone normalization (`src/packages/shared/src/shared/phone.py`), webhook
signature verification (`src/apps/ingestion_api/src/tally/verify.py`), and the
signup / payment reconciliation services
(`src/apps/ingestion_api/src/services/{signup,payment}.py`), together with
theorems about the specified properties.

Conventions of the embedding:
- Python `str` is Lean `String`; nullable values are `Option`.
- Dynamic field values (`value: Any`) are the inductive `Value` below.
- Timestamps are abstract instants (`Nat`); `datetime.now()` is passed in
  explicitly as a `now` parameter.
- The durable store (SQLAlchemy session over the registrations / signups /
  payments tables) is an explicit `Store` record; object mutation through the
  session becomes functional update of the matching row.
- Python exceptions raised by a function are `Except.error`.
- External libraries (`phonenumbers`, `hmac`/`hashlib`) are abstracted as
  function parameters; everything the repository itself does is translated
  directly.
-/

deriving instance DecidableEq for Except

namespace StrangerBeers

/-- A primitive (non-list) dynamic Python value: element of a multi-select
list or a choice-option id. -/
inductive Prim where
  | pnull : Prim
  | pstr : String → Prim
  | pint : Int → Prim
deriving DecidableEq, Repr, Inhabited

/-- Dynamic (JSON-ish) Python values as they occur in Tally field payloads;
lists carry primitive elements, which is the only nesting the payloads use. -/
inductive Value where
  | vnull : Value
  | vstr : String → Value
  | vint : Int → Value
  | vlist : List Prim → Value
deriving DecidableEq, Repr, Inhabited

/-- Python truthiness for `Prim` (`if v:` on a list element). -/
def Prim.truthy : Prim → Bool
  | .pnull => false
  | .pstr s => s != ""
  | .pint n => n != 0

/-- Python truthiness for `Value` (`if value:` on a field value). -/
def Value.truthy : Value → Bool
  | .vnull => false
  | .vstr s => s != ""
  | .vint n => n != 0
  | .vlist l => !l.isEmpty

/-- Python whitespace test used by `str.strip()` (ASCII whitespace). -/
def isPySpace (c : Char) : Bool :=
  c = ' ' ∨ c = '\t' ∨ c = '\n' ∨ c = '\r'

/-- Python `str.strip()`: drop leading and trailing whitespace. -/
def pyStrip (s : String) : String :=
  (((s.data.dropWhile isPySpace).reverse.dropWhile isPySpace).reverse).asString

/-- Python `str.lower()` (ASCII case folding suffices for the keys used). -/
def pyLower (s : String) : String :=
  (s.data.map Char.toLower).asString

/-- Python `repr` of a primitive, as used by `str()` on a containing list. -/
def Prim.pyRepr : Prim → String
  | .pnull => "None"
  | .pstr s => "\x27" ++ s ++ "\x27"
  | .pint n => toString n

/-- Python `str(v)` for a primitive list element. -/
def Prim.pyStr : Prim → String
  | .pnull => "None"
  | .pstr s => s
  | .pint n => toString n

/-- Python `str(value)` for the dynamic values above. -/
def Value.pyStr : Value → String
  | .vnull => "None"
  | .vstr s => s
  | .vint n => toString n
  | .vlist l => "[" ++ String.intercalate ", " (l.map Prim.pyRepr) ++ "]"

/-- Recognizer for a Python integer literal body: optional sign, then digits. -/
def intLitDigits : List Char → Option (List Char)
  | [] => none
  | c :: cs =>
      if c = '-' ∨ c = '+' then
        if cs = [] ∨ ¬ cs.all Char.isDigit then none else some cs
      else if (c :: cs).all Char.isDigit then some (c :: cs) else none

/-- Digits to a natural number, most significant first. -/
def digitsToNat (l : List Char) : Nat :=
  l.foldl (fun acc c => acc * 10 + (c.toNat - 48)) 0

/-- Python `int(value)`: succeeds on ints and on strings that are integer
literals after stripping whitespace; raises (`Except.error`) otherwise. -/
def pyInt : Value → Except String Int
  | .vint n => .ok n
  | .vstr s =>
      let t := pyStrip s
      match intLitDigits t.data with
      | some ds =>
          if t.data.head? = some '-' then .ok (-(digitsToNat ds : Int))
          else .ok (digitsToNat ds : Int)
      | none => .error "ValueError"
  | .vnull => .error "TypeError"
  | .vlist _ => .error "TypeError"

/-- One `{id, text}` entry of a choice field's `options` list (ids are
primitive; a missing `text` is not modelled, the forms always carry one). -/
structure OptionEntry where
  oid : Prim
  otext : String
deriving DecidableEq, Repr, Inhabited

/-- One submitted Tally field object. Absent `key`/`label`/`type` are the
empty string (the `.get(..., "")` default), absent `value` is `vnull`, absent
`options` is `[]`, matching how the source reads the dicts. -/
structure FieldRec where
  key : String
  label : String
  value : Value
  type : String
  options : List OptionEntry
deriving DecidableEq, Repr, Inhabited

/-- Insert into an association list with Python-dict overwrite semantics:
replace the value of an existing key in place, else append. -/
def dictInsert {β : Type} (d : List (String × β)) (k : String) (v : β) :
    List (String × β) :=
  match d with
  | [] => [(k, v)]
  | (k0, v0) :: rest =>
      if k0 = k then (k0, v) :: rest else (k0, v0) :: dictInsert rest k v

/-- Association-list lookup (Python `d[k]` / `k in d`). -/
def dictGet {β : Type} (d : List (String × β)) (k : String) : Option β :=
  match d with
  | [] => none
  | (k0, v0) :: rest => if k0 = k then some v0 else dictGet rest k

/-- Insert with overwrite, keyed by a primitive (for option-id dicts). -/
def pdictInsert {β : Type} (d : List (Prim × β)) (k : Prim) (v : β) :
    List (Prim × β) :=
  match d with
  | [] => [(k, v)]
  | (k0, v0) :: rest =>
      if k0 = k then (k0, v) :: rest else (k0, v0) :: pdictInsert rest k v

/-- Association-list lookup keyed by a primitive. -/
def pdictGet {β : Type} (d : List (Prim × β)) (k : Prim) : Option β :=
  match d with
  | [] => none
  | (k0, v0) :: rest => if k0 = k then some v0 else pdictGet rest k

/-! ## Field extraction (`src/apps/ingestion_api/src/tally/parse.py`) -/

/-- Embeds `SIGNUP_FIELD_MAP` from `parse.py`. -/
def SIGNUP_FIELD_MAP : List (String × List String) :=
  [("registration_id", ["registration_id", "registrationId", "Registration ID"]),
   ("event_id", ["event_id", "eventId", "Event ID"]),
   ("phone", ["phone", "Phone", "phone_number", "Phone Number", "Mobile"]),
   ("email", ["email", "Email", "email_address", "Email Address"]),
   ("full_name", ["full_name", "name", "Name", "Full Name", "Your Name"])]

/-- Embeds `FORM_FIELD_MAP` from `parse.py`. -/
def FORM_FIELD_MAP : List (String × List String) :=
  [("first_name", ["question_EQROMA", "What\x27s your first name?"]),
   ("phone", ["question_rA4Zvp", "Whats your phone number?"]),
   ("first_time", ["question_4x6bzd", "First time at Stranger Beers?"]),
   ("age", ["question_72AkM6", "How old are you?"]),
   ("gender", ["question_jQRVvY", "How do you identify?"]),
   ("country", ["question_62lBMo", "Where are you from"]),
   ("background", ["question_ALgXyo", "What\x27s your background"]),
   ("creative_expression_score", ["question_2NW67g", "creative expression"]),
   ("social_anxiety_score", ["question_xaqWvE", "feel nervous"]),
   ("emotional_intuition_score", ["question_NWjZdN", "emotional intuition"]),
   ("solitary_preference_score", ["question_Z67BDA", "solitary hobbies"]),
   ("interests_active_outdoors", ["question_qArlv8", "Active & Outdoors"]),
   ("interests_creativity", ["question_Q5ZQkl", "Creativity & Expression"]),
   ("interests_intellectual", ["question_9DkKMK", "Intellectual & Curious"]),
   ("interests_food_social", ["question_eeJXvJ", "Food & Social"]),
   ("interests_games", ["question_W5W71L", "Games & Collecting"]),
   ("interests_mind_self", ["question_aYLMvW", "Mind & Self"]),
   ("mbti", ["question_bxpJv0", "MBTI"]),
   ("optional_note", ["question_BkyRe4", "One last"])]

/-- Embeds `PAYMENT_FIELD_MAP` from `parse.py`. -/
def PAYMENT_FIELD_MAP : List (String × List String) :=
  [("registration_id", ["registration_id", "registrationId", "Registration ID"]),
   ("event_id", ["event_id", "eventId", "Event ID"]),
   ("phone", ["phone", "Phone", "phone_number", "Phone Number", "Mobile",
              "What\x27s the phone number you signed up with?"]),
   ("email", ["email", "Email", "email_address", "Email Address",
              "Reserve your drink! (email)"])]

/-- Embeds `_normalize_value` from `parse.py`: normalize a dynamic field value to an
optional string. -/
def normalizeValue : Value → Option String
  | .vnull => none
  | .vstr s =>
      let stripped := pyStrip s
      if stripped = "" then none else some stripped
  | .vlist l =>
      let nonEmpty := (l.filter Prim.truthy).map (fun v => pyStrip v.pyStr)
      if nonEmpty.isEmpty then none
      else some (String.intercalate ", " nonEmpty)
  | .vint n =>
      let t := pyStrip (Value.pyStr (.vint n))
      if t = "" then none else some t

/-- The `by_key` index built by `extract_field_value`: one pass over the
fields, skipping falsy keys, later fields overwriting earlier ones. -/
def buildByKey (fields : List FieldRec) : List (String × Value) :=
  fields.foldl
    (fun d f => if f.key != "" then dictInsert d (pyLower f.key) f.value else d)
    []

/-- The `by_label` index built by `extract_field_value`. -/
def buildByLabel (fields : List FieldRec) : List (String × Value) :=
  fields.foldl
    (fun d f =>
      if f.label != "" then dictInsert d (pyLower f.label) f.value else d)
    []

/-- The candidate walk of `extract_field_value`: first candidate present in
the key index, else in the label index, wins; its value is normalized (which
may itself yield `none`). -/
def searchCandidates (byKey byLabel : List (String × Value)) :
    List String → Option String
  | [] => none
  | c :: rest =>
      let cLower := pyLower c
      match dictGet byKey cLower with
      | some v => normalizeValue v
      | none =>
          match dictGet byLabel cLower with
          | some v => normalizeValue v
          | none => searchCandidates byKey byLabel rest

/-- Embeds `extract_field_value` from `parse.py`. -/
def extract_field_value (fields : List FieldRec) (logicalName : String)
    (fieldMap : List (String × List String)) : Option String :=
  let possibleKeys := (dictGet fieldMap logicalName).getD []
  if possibleKeys.isEmpty then none
  else searchCandidates (buildByKey fields) (buildByLabel fields) possibleKeys

/-- Embeds `_resolve_option_text` from `parse.py`. -/
def resolveOptionText (f : FieldRec) : Option String :=
  if !f.value.truthy || f.options.isEmpty then normalizeValue f.value
  else
    let optionLookup :=
      f.options.foldl (fun d o => pdictInsert d o.oid o.otext) []
    match f.value with
    | .vlist l =>
        let texts := l.map (fun v =>
          match pdictGet optionLookup v with
          | some t => t
          | none => v.pyStr)
        if texts.isEmpty then none else some (String.intercalate ", " texts)
    | v =>
        match v with
        | .vstr s =>
            match pdictGet optionLookup (.pstr s) with
            | some t => some t
            | none => normalizeValue v
        | .vint n =>
            match pdictGet optionLookup (.pint n) with
            | some t => some t
            | none => normalizeValue v
        | _ => normalizeValue v

/-- The dynamically-typed `value` local of `extract_form_fields`: an optional
string or an optional int, depending on the branch taken. -/
inductive VOut where
  | vnone : VOut
  | vs : String → VOut
  | vi : Int → VOut
deriving DecidableEq, Repr, Inhabited

/-- Lift an optional string into `VOut`. -/
def optToVOut : Option String → VOut
  | none => .vnone
  | some s => .vs s

/-- The per-field value computation of `extract_form_fields`: choice types
resolve options, `LINEAR_SCALE` coerces with Python `int(...)` (which
raises on non-numeric values), everything else is `_normalize_value`. -/
def computeFieldValue (f : FieldRec) : Except String VOut :=
  if f.type = "MULTIPLE_CHOICE" ∨ f.type = "DROPDOWN" ∨ f.type = "MULTI_SELECT"
  then .ok (optToVOut (resolveOptionText f))
  else if f.type = "LINEAR_SCALE" then
    match f.value with
    | .vnull => .ok .vnone
    | v => (pyInt v).map .vi
  else .ok (optToVOut (normalizeValue f.value))

/-- The `fields_by_key` index of `extract_form_fields` (no falsy-key skip:
a field with no key is indexed under `""`). -/
def buildFieldsByKey (fields : List FieldRec) : List (String × FieldRec) :=
  fields.foldl (fun d f => dictInsert d (pyLower f.key) f) []

/-- The inner candidate loop of `extract_form_fields`: the first candidate
present in the key index determines the value; no candidate means the
attribute keeps its `None` default. -/
def extractAttr (fieldsByKey : List (String × FieldRec)) :
    List String → Except String VOut
  | [] => .ok .vnone
  | c :: rest =>
      match dictGet fieldsByKey (pyLower c) with
      | some f => computeFieldValue f
      | none => extractAttr fieldsByKey rest

/-- The `*_score` assignment of `extract_form_fields`:
`value if isinstance(value, int) else None`. -/
def scoreOf : VOut → Option Int
  | .vi n => some n
  | _ => none

/-- The non-score assignment of `extract_form_fields`:
`value if isinstance(value, str) else str(value) if value else None`. -/
def stringOf : VOut → Option String
  | .vs s => some s
  | .vi n => if n ≠ 0 then some (Value.pyStr (.vint n)) else none
  | .vnone => none

/-- Embeds `ExtractedFormFields` from `parse.py`. -/
structure ExtractedFormFields where
  first_name : Option String := none
  phone : Option String := none
  first_time : Option String := none
  age : Option String := none
  gender : Option String := none
  country : Option String := none
  background : Option String := none
  creative_expression_score : Option Int := none
  social_anxiety_score : Option Int := none
  emotional_intuition_score : Option Int := none
  solitary_preference_score : Option Int := none
  interests_active_outdoors : Option String := none
  interests_creativity : Option String := none
  interests_intellectual : Option String := none
  interests_food_social : Option String := none
  interests_games : Option String := none
  interests_mind_self : Option String := none
  mbti : Option String := none
  optional_note : Option String := none
deriving DecidableEq, Repr, Inhabited

/-- The candidate list of a logical name in `FORM_FIELD_MAP`. -/
def formCands (name : String) : List String :=
  (dictGet FORM_FIELD_MAP name).getD []

/-- Embeds `extract_form_fields` from `parse.py`: walk `FORM_FIELD_MAP` in declared
order, match each attribute's candidates against the key index only, and
assign with the score / string coercion rules; a Python exception raised by
`int(...)` aborts the whole extraction. -/
def extract_form_fields (fields : List FieldRec) :
    Except String ExtractedFormFields := do
  let d := buildFieldsByKey fields
  let v01 ← extractAttr d (formCands "first_name")
  let v02 ← extractAttr d (formCands "phone")
  let v03 ← extractAttr d (formCands "first_time")
  let v04 ← extractAttr d (formCands "age")
  let v05 ← extractAttr d (formCands "gender")
  let v06 ← extractAttr d (formCands "country")
  let v07 ← extractAttr d (formCands "background")
  let v08 ← extractAttr d (formCands "creative_expression_score")
  let v09 ← extractAttr d (formCands "social_anxiety_score")
  let v10 ← extractAttr d (formCands "emotional_intuition_score")
  let v11 ← extractAttr d (formCands "solitary_preference_score")
  let v12 ← extractAttr d (formCands "interests_active_outdoors")
  let v13 ← extractAttr d (formCands "interests_creativity")
  let v14 ← extractAttr d (formCands "interests_intellectual")
  let v15 ← extractAttr d (formCands "interests_food_social")
  let v16 ← extractAttr d (formCands "interests_games")
  let v17 ← extractAttr d (formCands "interests_mind_self")
  let v18 ← extractAttr d (formCands "mbti")
  let v19 ← extractAttr d (formCands "optional_note")
  pure
    { first_name := stringOf v01
      phone := stringOf v02
      first_time := stringOf v03
      age := stringOf v04
      gender := stringOf v05
      country := stringOf v06
      background := stringOf v07
      creative_expression_score := scoreOf v08
      social_anxiety_score := scoreOf v09
      emotional_intuition_score := scoreOf v10
      solitary_preference_score := scoreOf v11
      interests_active_outdoors := stringOf v12
      interests_creativity := stringOf v13
      interests_intellectual := stringOf v14
      interests_food_social := stringOf v15
      interests_games := stringOf v16
      interests_mind_self := stringOf v17
      mbti := stringOf v18
      optional_note := stringOf v19 }

/-! ## Phone normalization (`src/packages/shared/src/shared/phone.py`)

The `phonenumbers` library is external; it is abstracted as three function
parameters over an abstract parsed-number type `α`: `parse` (returning `none`
for `NumberParseException`), `isValidNumber`, and `formatE164`. -/

/-- Embeds `normalize_phone` from `phone.py`: empty / whitespace-only input is
absent; otherwise parse the stripped input with the default region, reject
invalid numbers, and format valid ones as E.164. -/
def normalize_phone {α : Type} (parse : String → String → Option α)
    (isValidNumber : α → Bool) (formatE164 : α → String)
    (phone : String) (defaultRegion : String) : Option String :=
  if phone = "" ∨ pyStrip phone = "" then none
  else
    match parse (pyStrip phone) defaultRegion with
    | none => none
    | some p =>
        if !isValidNumber p then none
        else some (formatE164 p)

/-! ## Signature verification (`src/apps/ingestion_api/src/tally/verify.py`)

The settings object is the relevant slice of `config.Settings`; the
`hmac`/`hashlib` composition of `compute_hmac_sha256` is abstracted as a
function parameter `hmacSha256Hex` from (body bytes, secret) to the
hex-encoded digest string. Bytes are modelled as `List Nat`. -/

/-- The configuration slice read by the verifier (`config.py`). Secrets
default to the empty string there, so they are plain strings with emptiness
meaning unconfigured. -/
structure VerifySettings where
  verify_tally_signature : Bool
  tally_signup_secret : String
  tally_payment_secret : String
deriving DecidableEq, Repr

/-- Embeds `verify_tally_signature` from `verify.py`. -/
def verify_tally_signature (settings : VerifySettings)
    (hmacSha256Hex : List Nat → String → String)
    (body : List Nat) (signatureHeader : Option String) (formType : String) :
    Bool × Option String :=
  if !settings.verify_tally_signature then (true, none)
  else
    match
      (if formType = "signup" then some settings.tally_signup_secret
       else if formType = "payment" then some settings.tally_payment_secret
       else none) with
    | none => (false, some ("Unknown form type: " ++ formType))
    | some secret =>
        if secret = "" then
          (false, some ("Signature verification enabled but no secret configured for "
            ++ formType ++ " form"))
        else
          match signatureHeader with
          | none => (false, some "Missing tally-signature header")
          | some hdr =>
              if hdr = "" then (false, some "Missing tally-signature header")
              else
                let expected := hmacSha256Hex body secret
                if hdr = expected then (true, none)
                else (false, some "Invalid signature")

/-! ## Parsed records (`parse.py`) -/

/-- Embeds `ParsedSignupData` from `parse.py`. The raw payload is retained as the
submitted field list (the only part of it the services read back). -/
structure ParsedSignupData where
  form_id : String
  submission_id : Option String
  event_id : Option String
  registration_id : Option String
  phone_raw : Option String
  phone_e164 : Option String
  email : Option String
  full_name : Option String
  raw_payload : List FieldRec
  form_fields : Option ExtractedFormFields := none
deriving DecidableEq, Repr

/-- Embeds `ParsedPaymentData` from `parse.py`. -/
structure ParsedPaymentData where
  form_id : String
  submission_id : Option String
  event_id : Option String
  registration_id : Option String
  phone_raw : Option String
  phone_e164 : Option String
  email : Option String
  raw_payload : List FieldRec
deriving DecidableEq, Repr

/-- Python truthiness of an optional string (`if parsed.registration_id:`):
false for `None` and for the empty string. -/
def optTruthy : Option String → Bool
  | none => false
  | some s => s != ""

/-! ## Durable store (`models.py`) -/

/-- The `registrations` row (`models.Registration`). Timestamps are abstract
instants; the `payment_link_status` column is a string, as in the schema. -/
structure Registration where
  registration_id : String
  event_id : String
  email : Option String := none
  phone_e164 : Option String := none
  full_name : Option String := none
  signup_payload : Option (List FieldRec) := none
  signup_received_at : Option Nat := none
  paid : Bool := false
  paid_at : Option Nat := none
  payment_payload : Option (List FieldRec) := none
  payment_received_at : Option Nat := none
  payment_claimed_registration_id : Option String := none
  payment_claimed_phone_e164 : Option String := none
  payment_link_status : String := "unpaid"
  created_at : Nat := 0
  updated_at : Nat := 0
deriving DecidableEq, Repr

/-- The `signups` audit row (`models.Signup`); the DB-assigned `id` and
`received_at` columns are outside the service logic and omitted. -/
structure SignupAudit where
  first_name : Option String := none
  phone : Option String := none
  first_time : Option String := none
  age : Option String := none
  gender : Option String := none
  country : Option String := none
  background : Option String := none
  creative_expression_score : Option Int := none
  social_anxiety_score : Option Int := none
  emotional_intuition_score : Option Int := none
  solitary_preference_score : Option Int := none
  interests_active_outdoors : Option String := none
  interests_creativity : Option String := none
  interests_intellectual : Option String := none
  interests_food_social : Option String := none
  interests_games : Option String := none
  interests_mind_self : Option String := none
  mbti : Option String := none
  optional_note : Option String := none
deriving DecidableEq, Repr, Inhabited

/-- The `payments` audit row (`models.Payment`); `id` and `arrived_at` are
DB-assigned and omitted. -/
structure PaymentAudit where
  phone : Option String
  status : Option String
  recognized : Bool
deriving DecidableEq, Repr

/-- The durable store: the three tables one request's session touches. -/
structure Store where
  regs : List Registration
  signups : List SignupAudit
  payments : List PaymentAudit
deriving DecidableEq, Repr

/-- The empty store. -/
def Store.empty : Store := ⟨[], [], []⟩

/-- Embeds `session.get(Registration, rid)`, the primary-key lookup. -/
def getReg (s : Store) (rid : String) : Option Registration :=
  s.regs.find? (fun r => r.registration_id == rid)

/-- Embeds `_find_by_event_and_phone` from `payment.py`. -/
def findByEventAndPhone (s : Store) (eventId phone : String) :
    List Registration :=
  s.regs.filter (fun r => r.event_id == eventId && r.phone_e164 == some phone)

/-! ## Signup service (`services/signup.py`) -/

/-- Embeds `SignupResult` from `signup.py`. -/
structure SignupResult where
  success : Bool
  registration_id : Option String
  is_new : Bool
  error_message : Option String := none
deriving DecidableEq, Repr

/-- Embeds `_log_submission` from `signup.py`: append a `signups` audit row carrying
the extracted form fields when present. -/
def logSignupSubmission (s : Store) (p : ParsedSignupData) : Store :=
  let row : SignupAudit :=
    match p.form_fields with
    | none => {}
    | some ff =>
        { first_name := ff.first_name
          phone := ff.phone
          first_time := ff.first_time
          age := ff.age
          gender := ff.gender
          country := ff.country
          background := ff.background
          creative_expression_score := ff.creative_expression_score
          social_anxiety_score := ff.social_anxiety_score
          emotional_intuition_score := ff.emotional_intuition_score
          solitary_preference_score := ff.solitary_preference_score
          interests_active_outdoors := ff.interests_active_outdoors
          interests_creativity := ff.interests_creativity
          interests_intellectual := ff.interests_intellectual
          interests_food_social := ff.interests_food_social
          interests_games := ff.interests_games
          interests_mind_self := ff.interests_mind_self
          mbti := ff.mbti
          optional_note := ff.optional_note }
  { s with signups := s.signups ++ [row] }

/-- The field overwrite applied to an existing registration by
`process_signup` (the update branch). -/
def signupUpdate (rid eventId : String) (p : ParsedSignupData) (now : Nat)
    (r : Registration) : Registration :=
  if r.registration_id == rid then
    { r with
      event_id := eventId
      email := p.email
      phone_e164 := p.phone_e164
      full_name := p.full_name
      signup_payload := some p.raw_payload
      signup_received_at := some now
      updated_at := now }
  else r

/-- The fresh `Registration` row built by the create branch of
`process_signup` (`paid=False`, `payment_link_status="unpaid"` passed
explicitly; the other payment columns keep their schema defaults). -/
def newRegOf (registrationId eventId : String) (p : ParsedSignupData)
    (now : Nat) : Registration :=
  { registration_id := registrationId
    event_id := eventId
    email := p.email
    phone_e164 := p.phone_e164
    full_name := p.full_name
    signup_payload := some p.raw_payload
    signup_received_at := some now
    paid := false
    payment_link_status := "unpaid"
    created_at := now
    updated_at := now }

/-- Embeds `process_signup` from `signup.py`. The generated
`REG-{uuid}` / `EVT-{uuid}` identifiers are passed in as the `freshReg` /
`freshEvent` parameters; `datetime.now()` is the `now` parameter. -/
def process_signup (s : Store) (p : ParsedSignupData)
    (freshReg freshEvent : String) (now : Nat) : SignupResult × Store :=
  let registrationId :=
    if optTruthy p.registration_id then p.registration_id.getD ""
    else freshReg
  let eventId :=
    if optTruthy p.event_id then p.event_id.getD "" else freshEvent
  match getReg s registrationId with
  | some _ =>
      let s2 :=
        { s with regs := s.regs.map (signupUpdate registrationId eventId p now) }
      let s3 := logSignupSubmission s2 p
      ({ success := true, registration_id := some registrationId,
         is_new := false }, s3)
  | none =>
      let s2 := { s with regs := s.regs ++ [newRegOf registrationId eventId p now] }
      let s3 := logSignupSubmission s2 p
      ({ success := true, registration_id := some registrationId,
         is_new := true }, s3)

/-! ## Payment service (`services/payment.py`) -/

/-- Embeds `PaymentLinkStatus` from `payment.py` (the four enum members; the
`unpaid` column default is not an enum member). -/
inductive PaymentLinkStatus where
  | matched_by_registration_id
  | matched_by_phone
  | orphan_payment
  | ambiguous_phone_match
deriving DecidableEq, Repr

/-- The string value of each enum member. -/
def PaymentLinkStatus.value : PaymentLinkStatus → String
  | .matched_by_registration_id => "matched_by_registration_id"
  | .matched_by_phone => "matched_by_phone"
  | .orphan_payment => "orphan_payment"
  | .ambiguous_phone_match => "ambiguous_phone_match"

/-- Embeds `PaymentResult` from `payment.py`. -/
structure PaymentResult where
  success : Bool
  registration_id : Option String
  link_status : Option PaymentLinkStatus
  is_emergency : Bool
  error_message : Option String := none
deriving DecidableEq, Repr

/-- Whether `pat` is a leading segment of `l`. -/
def leadsList (pat l : List Char) : Bool :=
  match pat, l with
  | [], _ => true
  | _ :: _, [] => false
  | p :: ps, c :: cs => p = c && leadsList ps cs

/-- Whether `pat` occurs inside `l` (Python `pat in s` on strings). -/
def hasSubList (l pat : List Char) : Bool :=
  if leadsList pat l then true
  else
    match l with
    | [] => false
    | _ :: t => hasSubList t pat

/-- Python `pat in s` for strings. -/
def strHasSub (s pat : String) : Bool :=
  hasSubList s.data pat.data

/-- Embeds `_check_phone_in_signups` from `payment.py`: an existence query over the
`signups` audit table. -/
def checkPhoneInSignups (signups : List SignupAudit) (phone : String) : Bool :=
  signups.any (fun g => g.phone == some phone)

/-- The "All done" status scan of `_log_submission` in `payment.py`: first
field whose label contains `"All done"`; list values with options resolve
each id to its text, anything else is stringified when truthy. -/
def extractAllDoneStatus (fields : List FieldRec) : Option String :=
  match fields.find? (fun f => strHasSub f.label "All done") with
  | none => none
  | some f =>
      match f.value with
      | .vlist l =>
          if !f.options.isEmpty then
            let optionLookup :=
              f.options.foldl (fun d o => pdictInsert d o.oid o.otext) []
            some (String.intercalate ", "
              (l.map (fun v => (pdictGet optionLookup v).getD v.pyStr)))
          else if Value.truthy (.vlist l) then some (Value.pyStr (.vlist l))
          else none
      | v => if v.truthy then some v.pyStr else none

/-- The `payments` audit row appended by `_log_submission` in `payment.py`:
the canonical phone (falling back to the raw one), the "All done" status,
and phone recognition against historical signup audit rows. -/
def paymentAuditRow (signups : List SignupAudit) (p : ParsedPaymentData) :
    PaymentAudit :=
  let phone := if optTruthy p.phone_e164 then p.phone_e164 else p.phone_raw
  let recognized :=
    if optTruthy phone then checkPhoneInSignups signups (phone.getD "")
    else false
  { phone := phone
    status := extractAllDoneStatus p.raw_payload
    recognized := recognized }

/-- Embeds `_log_submission` from `payment.py` as a store transformer. -/
def logPaymentSubmission (s : Store) (p : ParsedPaymentData) : Store :=
  { s with payments := s.payments ++ [paymentAuditRow s.signups p] }

/-- Embeds `_mark_paid` from `payment.py`, applied to the row with the given id. -/
def markPaid (rid : String) (p : ParsedPaymentData) (now : Nat)
    (status : PaymentLinkStatus) (r : Registration) : Registration :=
  if r.registration_id == rid then
    { r with
      paid := true
      paid_at := some now
      payment_payload := some p.raw_payload
      payment_received_at := some now
      payment_claimed_registration_id := p.registration_id
      payment_claimed_phone_e164 := p.phone_e164
      payment_link_status := status.value
      updated_at := now }
  else r

/-- Embeds `_mark_paid` lifted to the store. -/
def markPaidStore (s : Store) (rid : String) (p : ParsedPaymentData)
    (now : Nat) (status : PaymentLinkStatus) : Store :=
  { s with regs := s.regs.map (markPaid rid p now status) }

/-- The terminal orphan-payment branch of `process_payment`. -/
def paymentOrphan (s : Store) (p : ParsedPaymentData) :
    PaymentResult × Store :=
  let s2 := logPaymentSubmission s p
  ({ success := true
     registration_id := none
     link_status := some .orphan_payment
     is_emergency := true
     error_message := some "No matching registration found for payment" }, s2)

/-- Step 2 of `process_payment`: the `(event_id, phone_e164)` match. -/
def paymentPhoneStep (s : Store) (p : ParsedPaymentData) (now : Nat) :
    PaymentResult × Store :=
  if optTruthy p.event_id && optTruthy p.phone_e164 then
    match findByEventAndPhone s (p.event_id.getD "") (p.phone_e164.getD "") with
    | [registration] =>
        let s2 :=
          markPaidStore s registration.registration_id p now .matched_by_phone
        let s3 := logPaymentSubmission s2 p
        ({ success := true
           registration_id := some registration.registration_id
           link_status := some .matched_by_phone
           is_emergency := false }, s3)
    | [] => paymentOrphan s p
    | _ :: _ :: _ =>
        let s2 := logPaymentSubmission s p
        ({ success := true
           registration_id := none
           link_status := some .ambiguous_phone_match
           is_emergency := true
           error_message := some ("Multiple registrations found for phone "
             ++ p.phone_e164.getD "") }, s2)
  else paymentOrphan s p

/-- Embeds `process_payment` from `payment.py`: validation exit, then the direct
registration-id match, then the phone match / emergency classification. -/
def process_payment (s : Store) (p : ParsedPaymentData) (now : Nat) :
    PaymentResult × Store :=
  if !optTruthy p.registration_id && !optTruthy p.phone_e164 then
    ({ success := false
       registration_id := none
       link_status := none
       is_emergency := true
       error_message :=
         some "Payment has neither registration_id nor valid phone number" }, s)
  else
    match
      (if optTruthy p.registration_id then getReg s (p.registration_id.getD "")
       else none) with
    | some registration =>
        let s2 := markPaidStore s registration.registration_id p now
          .matched_by_registration_id
        let s3 := logPaymentSubmission s2 p
        ({ success := true
           registration_id := some registration.registration_id
           link_status := some .matched_by_registration_id
           is_emergency := false }, s3)
    | none => paymentPhoneStep s p now

/-! ## Operation sequences and specified properties -/

/-- One reconciliation operation against the durable store: a processed
signup (with its generated-identifier and timestamp inputs) or a processed
payment. -/
inductive Op where
  | signup (p : ParsedSignupData) (freshReg freshEvent : String) (now : Nat)
  | payment (p : ParsedPaymentData) (now : Nat)

/-- The store effect of one operation. -/
def applyOp (s : Store) : Op → Store
  | .signup p freshReg freshEvent now =>
      (process_signup s p freshReg freshEvent now).2
  | .payment p now => (process_payment s p now).2

/-- The registration invariant: `paid = true` only with one of the two
`matched_by_*` link statuses. -/
def PaidStatusInv (s : Store) : Prop :=
  ∀ r ∈ s.regs, r.paid = true →
    r.payment_link_status = "matched_by_registration_id" ∨
    r.payment_link_status = "matched_by_phone"

instance (s : Store) : Decidable (PaidStatusInv s) := by
  unfold PaidStatusInv; infer_instance

/-- An orphan-payment or ambiguous-phone-match outcome leaves every
registration row exactly as it was. -/
def EmergencyPreservesRegs (s : Store) (p : ParsedPaymentData) (now : Nat) :
    Prop :=
  (process_payment s p now).1.link_status = some .orphan_payment ∨
    (process_payment s p now).1.link_status = some .ambiguous_phone_match →
  (process_payment s p now).2.regs = s.regs

/-- When the signup's registration id is not already in the store (the
creation branch), every row of the post-state that is not carried over from
the pre-state starts unpaid with link status `"unpaid"`. -/
def NewRegsUnpaid (s : Store) (p : ParsedSignupData)
    (freshReg freshEvent : String) (now : Nat) : Prop :=
  getReg s (if optTruthy p.registration_id then p.registration_id.getD ""
            else freshReg) = none →
  ∀ r ∈ (process_signup s p freshReg freshEvent now).2.regs, r ∉ s.regs →
    r.paid = false ∧ r.payment_link_status = "unpaid"

/-- The row with the given id carries exactly the `_mark_paid` mutation:
paid now, the payment payload and claimed fields copied verbatim, the given
link status, and a bumped `updated_at`. -/
def MarkedPaidAt (s' : Store) (rid : String) (p : ParsedPaymentData)
    (now : Nat) (statusStr : String) : Prop :=
  ∀ r ∈ s'.regs, r.registration_id = rid →
    r.paid = true ∧ r.paid_at = some now ∧
    r.payment_payload = some p.raw_payload ∧
    r.payment_received_at = some now ∧
    r.payment_claimed_registration_id = p.registration_id ∧
    r.payment_claimed_phone_e164 = p.phone_e164 ∧
    r.payment_link_status = statusStr ∧
    r.updated_at = now

/-- Every row other than the one with the given id is carried over
unchanged from the pre-state. -/
def OthersUntouched (s s' : Store) (rid : String) : Prop :=
  ∀ r ∈ s'.regs, r.registration_id ≠ rid → r ∈ s.regs

/-- The payment-side column values of a registration row. -/
def paymentFieldsOf (r : Registration) :
    Bool × Option Nat × Option (List FieldRec) × Option Nat ×
      Option String × Option String × String :=
  (r.paid, r.paid_at, r.payment_payload, r.payment_received_at,
   r.payment_claimed_registration_id, r.payment_claimed_phone_e164,
   r.payment_link_status)

/-- Rows keyed by the given id have the same payment-side column values in
`s'` as in `s`. -/
def PaymentFieldsPreserved (s s' : Store) (rid : String) : Prop :=
  ∀ r ∈ s.regs, r.registration_id = rid →
    ∀ r' ∈ s'.regs, r'.registration_id = rid →
      paymentFieldsOf r' = paymentFieldsOf r

/-! ## Concrete instances of the abstracted external libraries, used to
exercise the theorems about `normalize_phone` and the signature verifier on
closed inputs. -/

/-- A one-number `phonenumbers.parse` instance: recognizes the E.164 string
`"+14155551234"`. -/
def phoneParseC (s : String) (_region : String) : Option Bool :=
  if s = "+14155551234" then some true else none

/-- The matching `is_valid_number` instance. -/
def phoneValidC (b : Bool) : Bool := b

/-- The matching E.164 formatter instance. -/
def phoneFmtC (_ : Bool) : String := "+14155551234"

/-- A concrete stand-in for the hex-encoded HMAC-SHA256 digest function. -/
def hmacC (body : List Nat) (secret : String) : String :=
  secret ++ "-" ++ toString body.length

/-! ## Concrete fixtures used to exercise the theorems on closed inputs -/

/-- A registration without a phone. -/
def regR1 : Registration := { registration_id := "R1", event_id := "E1" }

/-- A registration with a canonical phone. -/
def regR2 : Registration :=
  { registration_id := "R2", event_id := "E1",
    phone_e164 := some "+31612345678" }

/-- A second registration sharing `regR2`'s event and phone. -/
def regR3 : Registration :=
  { registration_id := "R3", event_id := "E1",
    phone_e164 := some "+31612345678" }

/-- A store holding only `regR1`. -/
def storeA : Store := ⟨[regR1], [], []⟩

/-- A store holding `regR1` and `regR2`. -/
def storeB : Store := ⟨[regR1, regR2], [], []⟩

/-- A payment submission claiming `registration_id = "R1"` and nothing else. -/
def payDirect : ParsedPaymentData :=
  ⟨"pay", none, none, some "R1", none, none, none, []⟩

/-- A payment submission claiming an unknown `registration_id = "RX"` with an
event and canonical phone matching exactly `regR2`. -/
def payPhone : ParsedPaymentData :=
  ⟨"pay", none, some "E1", some "RX", some "0612345678",
   some "+31612345678", none, []⟩

/-- A payment submission whose phone matches no registration. -/
def payNoMatch : ParsedPaymentData :=
  ⟨"pay", none, some "E1", none, some "0600000000",
   some "+31600000000", none, []⟩

/-- A signup submission carrying both identifiers. -/
def sigR1 : ParsedSignupData :=
  ⟨"su", none, some "E1", some "R1", none, none, some "a@b.c",
   some "Ann", [], none⟩

/-! ## Helper lemmas -/

theorem signupUpdate_registration_id (rid e : String) (p : ParsedSignupData)
    (now : Nat) (r : Registration) :
    (signupUpdate rid e p now r).registration_id = r.registration_id := by
  unfold signupUpdate; split <;> rfl

theorem signupUpdate_paymentFields (rid e : String) (p : ParsedSignupData)
    (now : Nat) (r : Registration) :
    paymentFieldsOf (signupUpdate rid e p now r) = paymentFieldsOf r := by
  unfold signupUpdate paymentFieldsOf; split <;> rfl

theorem signupUpdate_paid (rid e : String) (p : ParsedSignupData)
    (now : Nat) (r : Registration) :
    (signupUpdate rid e p now r).paid = r.paid := by
  unfold signupUpdate; split <;> rfl

theorem signupUpdate_link_status (rid e : String) (p : ParsedSignupData)
    (now : Nat) (r : Registration) :
    (signupUpdate rid e p now r).payment_link_status =
      r.payment_link_status := by
  unfold signupUpdate; split <;> rfl

theorem signupUpdate_idem (rid e : String) (p : ParsedSignupData)
    (now : Nat) (r : Registration) :
    signupUpdate rid e p now (signupUpdate rid e p now r) =
      signupUpdate rid e p now r := by
  by_cases h : (r.registration_id == rid) = true <;>
    simp [signupUpdate, h]

theorem markPaid_registration_id (rid : String) (p : ParsedPaymentData)
    (now : Nat) (st : PaymentLinkStatus) (r : Registration) :
    (markPaid rid p now st r).registration_id = r.registration_id := by
  unfold markPaid; split <;> rfl

theorem regs_logPaymentSubmission (s : Store) (p : ParsedPaymentData) :
    (logPaymentSubmission s p).regs = s.regs := rfl

theorem regs_logSignupSubmission (s : Store) (p : ParsedSignupData) :
    (logSignupSubmission s p).regs = s.regs := rfl

theorem markedPaidAt_markPaidStore (s : Store) (rid : String)
    (p : ParsedPaymentData) (now : Nat) (st : PaymentLinkStatus) :
    MarkedPaidAt (markPaidStore s rid p now st) rid p now st.value := by
  intro r hr hid
  obtain ⟨x, hx, rfl⟩ := List.mem_map.1 hr
  by_cases hg : (x.registration_id == rid) = true
  · simp [markPaid, hg]
  · rw [markPaid_registration_id] at hid
    simp [markPaid, hid] at hg

theorem othersUntouched_markPaidStore (s : Store) (rid : String)
    (p : ParsedPaymentData) (now : Nat) (st : PaymentLinkStatus) :
    OthersUntouched s (markPaidStore s rid p now st) rid := by
  intro r hr hid
  obtain ⟨x, hx, rfl⟩ := List.mem_map.1 hr
  by_cases hg : (x.registration_id == rid) = true
  · rw [markPaid_registration_id] at hid
    exact absurd (eq_of_beq hg) hid
  · simpa [markPaid, hg] using hx

/-- Members of a list mapped by a `registration_id`-keyed update with the
given id carry the update; used to push facts through `markPaidStore`. -/
theorem filter_id_singleton (l : List Registration) (rid : String)
    (hnd : (l.map Registration.registration_id).Nodup) (r : Registration)
    (hr : r ∈ l) (hid : r.registration_id = rid) :
    l.filter (fun x => x.registration_id == rid) = [r] := by
  induction l with
  | nil => cases hr
  | cons a t ih =>
      simp only [List.map_cons, List.nodup_cons] at hnd
      rcases List.mem_cons.1 hr with rfl | hrt
      · have ht : t.filter (fun x => x.registration_id == rid) = [] := by
          rw [List.filter_eq_nil_iff]
          intro b hb hbid
          exact hnd.1 (hid ▸ (eq_of_beq hbid) ▸
            List.mem_map_of_mem Registration.registration_id hb)
        simp [List.filter_cons, hid, ht]
      · have ha : ¬ (a.registration_id == rid) = true := by
          intro hba
          exact hnd.1 ((eq_of_beq hba) ▸ hid ▸
            List.mem_map_of_mem Registration.registration_id hrt)
        simp only [List.filter_cons, ha, if_neg ha]
        exact ih hnd.2 hrt

theorem paidStatusInv_markPaidStore (s : Store) (rid : String)
    (p : ParsedPaymentData) (now : Nat) (st : PaymentLinkStatus)
    (hst : st = .matched_by_registration_id ∨ st = .matched_by_phone)
    (h : PaidStatusInv s) : PaidStatusInv (markPaidStore s rid p now st) := by
  intro r hr hpaid
  obtain ⟨x, hx, rfl⟩ := List.mem_map.1 hr
  by_cases hg : (x.registration_id == rid) = true
  · rcases hst with rfl | rfl <;> simp [markPaid, hg, PaymentLinkStatus.value]
  · simp only [markPaid, hg, if_neg] at hpaid ⊢
    simp only [Bool.not_eq_true] at hg
    rw [if_neg (by simp [hg])] at hpaid ⊢
    exact h x hx hpaid

theorem paidStatusInv_process_signup (s : Store) (p : ParsedSignupData)
    (freshReg freshEvent : String) (now : Nat) (h : PaidStatusInv s) :
    PaidStatusInv (process_signup s p freshReg freshEvent now).2 := by
  unfold process_signup
  cases hg : getReg s (if optTruthy p.registration_id then
      p.registration_id.getD "" else freshReg) with
  | some r0 =>
      simp only [hg]
      intro r hr hpaid
      obtain ⟨x, hx, rfl⟩ := List.mem_map.1 hr
      rw [signupUpdate_paid] at hpaid
      rw [signupUpdate_link_status]
      exact h x hx hpaid
  | none =>
      simp only [hg]
      intro r hr hpaid
      rcases List.mem_append.1 hr with hold | hnew
      · exact h r hold hpaid
      · simp only [List.mem_singleton] at hnew
        subst hnew
        cases hpaid

theorem paidStatusInv_paymentPhoneStep (s : Store) (p : ParsedPaymentData)
    (now : Nat) (h : PaidStatusInv s) :
    PaidStatusInv (paymentPhoneStep s p now).2 := by
  unfold paymentPhoneStep paymentOrphan
  split
  · split
    · exact paidStatusInv_markPaidStore _ _ _ _ _ (Or.inr rfl) h
    · exact h
    · exact h
  · exact h

theorem paidStatusInv_process_payment (s : Store) (p : ParsedPaymentData)
    (now : Nat) (h : PaidStatusInv s) :
    PaidStatusInv (process_payment s p now).2 := by
  unfold process_payment
  split
  · exact h
  · split
    · exact paidStatusInv_markPaidStore _ _ _ _ _ (Or.inl rfl) h
    · exact paidStatusInv_paymentPhoneStep s p now h

theorem paidStatusInv_applyOp (s : Store) (op : Op) (h : PaidStatusInv s) :
    PaidStatusInv (applyOp s op) := by
  cases op with
  | signup p freshReg freshEvent now =>
      exact paidStatusInv_process_signup s p freshReg freshEvent now h
  | payment p now => exact paidStatusInv_process_payment s p now h

theorem paidStatusInv_foldl (ops : List Op) (s : Store) (h : PaidStatusInv s) :
    PaidStatusInv (ops.foldl applyOp s) := by
  induction ops generalizing s with
  | nil => exact h
  | cons op rest ih => exact ih (applyOp s op) (paidStatusInv_applyOp s op h)

theorem emergencyPreservesRegs_all (s : Store) (p : ParsedPaymentData)
    (now : Nat) : EmergencyPreservesRegs s p now := by
  unfold EmergencyPreservesRegs process_payment
  split
  · intro _; rfl
  · split
    · intro hc
      rcases hc with hc | hc <;> cases hc
    · unfold paymentPhoneStep paymentOrphan
      split
      · split
        · intro hc; rcases hc with hc | hc <;> cases hc
        · intro _; rfl
        · intro _; rfl
      · intro _; rfl

theorem newRegsUnpaid_all (s : Store) (p : ParsedSignupData)
    (freshReg freshEvent : String) (now : Nat) :
    NewRegsUnpaid s p freshReg freshEvent now := by
  unfold NewRegsUnpaid process_signup
  intro hmiss
  simp only [hmiss]
  intro r hr hnew
  rcases List.mem_append.1 hr with hold | hnewr
  · exact absurd hold hnew
  · simp only [List.mem_singleton] at hnewr
    subst hnewr
    exact ⟨rfl, rfl⟩

theorem paymentPhoneStep_success (s : Store) (p : ParsedPaymentData)
    (now : Nat) : (paymentPhoneStep s p now).1.success = true := by
  unfold paymentPhoneStep paymentOrphan
  split
  · split <;> rfl
  · rfl

/-- When the direct branch does not fire, `process_payment` is the phone
step. -/
theorem process_payment_phone_reduction (s : Store) (p : ParsedPaymentData)
    (now : Nat)
    (hnd : optTruthy p.registration_id = false ∨
      getReg s (p.registration_id.getD "") = none)
    (hp : optTruthy p.phone_e164 = true) :
    process_payment s p now = paymentPhoneStep s p now := by
  rcases hnd with hnd | hnd
  · simp [process_payment, hnd, hp]
  · by_cases hr : optTruthy p.registration_id = true
    · simp [process_payment, hr, hnd, hp]
    · have hr2 : optTruthy p.registration_id = false :=
        Bool.eq_false_iff.2 hr
      simp [process_payment, hr2, hp]

/-- Lemma: `find?` by registration id commutes with a `signupUpdate` map. -/
theorem find?_map_signupUpdate (l : List Registration) (rid' rid e : String)
    (p : ParsedSignupData) (now : Nat) :
    (l.map (signupUpdate rid e p now)).find?
        (fun r => r.registration_id == rid') =
      (l.find? (fun r => r.registration_id == rid')).map
        (signupUpdate rid e p now) := by
  rw [List.find?_map]
  have hq : ((fun r : Registration => r.registration_id == rid') ∘
      signupUpdate rid e p now) = fun r => r.registration_id == rid' := by
    funext x
    simp [Function.comp, signupUpdate_registration_id]
  rw [hq]

/-- The update branch of `process_signup`, with both identifiers present. -/
theorem process_signup_update_shape (s : Store) (p : ParsedSignupData)
    (freshReg freshEvent : String) (now : Nat) (r0 : Registration)
    (hrid : optTruthy p.registration_id = true)
    (hev : optTruthy p.event_id = true)
    (hfound : getReg s (p.registration_id.getD "") = some r0) :
    process_signup s p freshReg freshEvent now =
      ({ success := true, registration_id := some (p.registration_id.getD ""),
         is_new := false, error_message := none },
       logSignupSubmission
         { s with regs := s.regs.map (signupUpdate (p.registration_id.getD "")
             (p.event_id.getD "") p now) } p) := by
  simp [process_signup, hrid, hev, hfound]

/-- The create branch of `process_signup`, with both identifiers present. -/
theorem process_signup_create_shape (s : Store) (p : ParsedSignupData)
    (freshReg freshEvent : String) (now : Nat)
    (hrid : optTruthy p.registration_id = true)
    (hev : optTruthy p.event_id = true)
    (hmiss : getReg s (p.registration_id.getD "") = none) :
    process_signup s p freshReg freshEvent now =
      ({ success := true, registration_id := some (p.registration_id.getD ""),
         is_new := true, error_message := none },
       logSignupSubmission
         { s with regs := s.regs ++ [newRegOf (p.registration_id.getD "")
             (p.event_id.getD "") p now] } p) := by
  simp [process_signup, hrid, hev, hmiss]

/-! ## Claim theorems -/

/-- C1: starting from any store satisfying the paid-status invariant, every
store reachable by any sequence of `process_signup` / `process_payment`
operations satisfies `paid = true → payment_link_status ∈
{matched_by_registration_id, matched_by_phone}`; moreover orphan-payment and
ambiguous-phone-match outcomes leave every registration row unchanged (so
they never set `paid`), and the creation branch of a signup only adds rows
with `paid = false` and status `"unpaid"`. -/
theorem paid_implies_matched_reachable (s : Store) (ops : List Op)
    (h : PaidStatusInv s) :
    PaidStatusInv (ops.foldl applyOp s) ∧
    (∀ p now, EmergencyPreservesRegs s p now) ∧
    (∀ p freshReg freshEvent now, NewRegsUnpaid s p freshReg freshEvent now) :=
  ⟨paidStatusInv_foldl ops s h,
   fun p now => emergencyPreservesRegs_all s p now,
   fun p freshReg freshEvent now =>
     newRegsUnpaid_all s p freshReg freshEvent now⟩

/-- Witness for C1 at a concrete operation sequence: a signup creating
`"R1"`, a direct-match payment for it, and an unmatched (orphan) payment,
run from the empty store. -/
theorem paid_implies_matched_reachable_witness :
    PaidStatusInv (([Op.signup sigR1 "REG-G" "EVT-G" 1,
      Op.payment payDirect 2, Op.payment payNoMatch 3] : List Op).foldl
        applyOp Store.empty) ∧
    EmergencyPreservesRegs Store.empty payNoMatch 3 ∧
    NewRegsUnpaid Store.empty sigR1 "REG-G" "EVT-G" 1 :=
  ⟨(paid_implies_matched_reachable Store.empty
      [Op.signup sigR1 "REG-G" "EVT-G" 1, Op.payment payDirect 2,
       Op.payment payNoMatch 3] (by decide)).1,
   (paid_implies_matched_reachable Store.empty [] (by decide)).2.1
     payNoMatch 3,
   (paid_implies_matched_reachable Store.empty [] (by decide)).2.2
     sigR1 "REG-G" "EVT-G" 1⟩

/-- C2: a payment claiming a `registration_id` that names an existing
registration takes the direct-match branch regardless of any phone data: the
result is success, not an emergency, with that registration id and status
`matched_by_registration_id`; the matched row gets the full `_mark_paid`
mutation (paid, timestamps, payload and claimed fields copied, `updated_at`
bumped), other rows are untouched, and exactly one payment audit record is
appended. -/
theorem payment_direct_match_spec (s : Store) (p : ParsedPaymentData)
    (now : Nat) (reg : Registration)
    (hrid : optTruthy p.registration_id = true)
    (hfound : getReg s (p.registration_id.getD "") = some reg) :
    (process_payment s p now).1 =
      { success := true, registration_id := some reg.registration_id,
        link_status := some .matched_by_registration_id,
        is_emergency := false, error_message := none } ∧
    reg.registration_id = p.registration_id.getD "" ∧
    MarkedPaidAt (process_payment s p now).2 reg.registration_id p now
      "matched_by_registration_id" ∧
    OthersUntouched s (process_payment s p now).2 reg.registration_id ∧
    (process_payment s p now).2.payments =
      s.payments ++ [paymentAuditRow s.signups p] ∧
    (process_payment s p now).2.signups = s.signups := by
  have hfound2 : s.regs.find?
      (fun r => r.registration_id == p.registration_id.getD "") = some reg :=
    hfound
  have hbeq := List.find?_some hfound2
  have hidr : reg.registration_id = p.registration_id.getD "" :=
    eq_of_beq hbeq
  have hmain : process_payment s p now =
      ({ success := true, registration_id := some reg.registration_id,
         link_status := some .matched_by_registration_id,
         is_emergency := false, error_message := none },
       logPaymentSubmission
         (markPaidStore s reg.registration_id p now
           .matched_by_registration_id) p) := by
    simp [process_payment, hrid, hfound]
  refine ⟨by rw [hmain], hidr, ?_, ?_, by rw [hmain]; rfl, by rw [hmain]; rfl⟩
  · rw [hmain]
    exact markedPaidAt_markPaidStore s reg.registration_id p now
      .matched_by_registration_id
  · rw [hmain]
    exact othersUntouched_markPaidStore s reg.registration_id p now
      .matched_by_registration_id

/-- Witness for C2: the direct-match payment against the store holding
`regR1` (which also contains no phone data, showing the phone branch is
never consulted). -/
theorem payment_direct_match_spec_witness :
    optTruthy payDirect.registration_id = true ∧
    getReg storeA (payDirect.registration_id.getD "") = some regR1 ∧
    (process_payment storeA payDirect 5).1 =
      { success := true, registration_id := some regR1.registration_id,
        link_status := some .matched_by_registration_id,
        is_emergency := false, error_message := none } ∧
    MarkedPaidAt (process_payment storeA payDirect 5).2
      regR1.registration_id payDirect 5 "matched_by_registration_id" :=
  ⟨by decide, by decide,
   (payment_direct_match_spec storeA payDirect 5 regR1 (by decide)
     (by decide)).1,
   (payment_direct_match_spec storeA payDirect 5 regR1 (by decide)
     (by decide)).2.2.1⟩

/-- C3: a payment that reaches the phone-match branch and finds zero or more
than one `(event_id, phone_e164)` matches mutates no registration row,
appends exactly one payment audit record, and returns success with the
emergency flag and no registration id; zero matches yield `orphan_payment`
with the no-match message, several matches yield `ambiguous_phone_match`
with the multiple-registrations message naming the phone. -/
theorem payment_unmatched_phone_frame (s : Store) (p : ParsedPaymentData)
    (now : Nat)
    (hnd : optTruthy p.registration_id = false ∨
      getReg s (p.registration_id.getD "") = none)
    (he : optTruthy p.event_id = true) (hp : optTruthy p.phone_e164 = true)
    (hlen : (findByEventAndPhone s (p.event_id.getD "")
      (p.phone_e164.getD "")).length ≠ 1) :
    (process_payment s p now).2.regs = s.regs ∧
    (process_payment s p now).2.signups = s.signups ∧
    (process_payment s p now).2.payments =
      s.payments ++ [paymentAuditRow s.signups p] ∧
    (process_payment s p now).1.success = true ∧
    (process_payment s p now).1.is_emergency = true ∧
    (process_payment s p now).1.registration_id = none ∧
    (findByEventAndPhone s (p.event_id.getD "") (p.phone_e164.getD "") = [] →
      (process_payment s p now).1.link_status = some .orphan_payment ∧
      (process_payment s p now).1.error_message =
        some "No matching registration found for payment") ∧
    ((findByEventAndPhone s (p.event_id.getD "")
        (p.phone_e164.getD "")).length > 1 →
      (process_payment s p now).1.link_status = some .ambiguous_phone_match ∧
      (process_payment s p now).1.error_message =
        some ("Multiple registrations found for phone "
          ++ p.phone_e164.getD "")) := by
  have h1 := process_payment_phone_reduction s p now hnd hp
  cases hm : findByEventAndPhone s (p.event_id.getD "") (p.phone_e164.getD "")
    with
  | nil =>
      have h2 : paymentPhoneStep s p now = paymentOrphan s p := by
        simp [paymentPhoneStep, he, hp, hm]
      rw [h1, h2]
      exact ⟨rfl, rfl, rfl, rfl, rfl, rfl, fun _ => ⟨rfl, rfl⟩,
        fun hgt => absurd hgt (by decide)⟩
  | cons a t =>
      cases t with
      | nil => exact absurd (by simp [hm]) hlen
      | cons b t2 =>
          have h2 : paymentPhoneStep s p now =
              ({ success := true, registration_id := none,
                 link_status := some .ambiguous_phone_match,
                 is_emergency := true,
                 error_message := some ("Multiple registrations found for phone "
                   ++ p.phone_e164.getD "") }, logPaymentSubmission s p) := by
            simp [paymentPhoneStep, he, hp, hm]
          rw [h1, h2]
          exact ⟨rfl, rfl, rfl, rfl, rfl, rfl, fun hnil => absurd hnil (List.cons_ne_nil a (b :: t2)),
            fun _ => ⟨rfl, rfl⟩⟩

/-- Witness for C3 at the zero-match case: `payNoMatch` against `storeB`. -/
theorem payment_unmatched_phone_frame_witness :
    (process_payment storeB payNoMatch 4).2.regs = storeB.regs ∧
    (process_payment storeB payNoMatch 4).2.payments =
      storeB.payments ++ [paymentAuditRow storeB.signups payNoMatch] ∧
    (process_payment storeB payNoMatch 4).1.success = true ∧
    (process_payment storeB payNoMatch 4).1.is_emergency = true ∧
    (process_payment storeB payNoMatch 4).1.link_status =
      some .orphan_payment := by
  have T := payment_unmatched_phone_frame storeB payNoMatch 4
    (Or.inl (by decide)) (by decide) (by decide) (by decide)
  exact ⟨T.1, T.2.2.1, T.2.2.2.1, T.2.2.2.2.1,
    (T.2.2.2.2.2.2.1 (by decide)).1⟩

/-- C4 counterexample: on a payment with neither identifier the code does
reject with `success = false` and writes nothing, but the returned result
carries `is_emergency = true`, contradicting the claim that this rejected
outcome is not flagged as an emergency. -/
theorem payment_no_identifiers_counterexample :
    (process_payment Store.empty
      ⟨"pay", none, none, none, none, none, none, []⟩ 0).1.success = false ∧
    (process_payment Store.empty
      ⟨"pay", none, none, none, none, none, none, []⟩ 0).1.is_emergency
      = true := by decide

/-- C4 (amended): a payment with neither a truthy `registration_id` nor a
truthy canonical phone returns the fixed validation-error result —
`success = false`, no link status, the validation message, and (unlike what
the claim states) `is_emergency = true` — while the store is returned
untouched: no registration mutated, no audit row written, and the outcome
is independent of the store contents (no observable lookup). -/
theorem payment_no_identifiers_rejected (s : Store) (p : ParsedPaymentData)
    (now : Nat) (hr : optTruthy p.registration_id = false)
    (hp : optTruthy p.phone_e164 = false) :
    process_payment s p now =
      ({ success := false, registration_id := none, link_status := none,
         is_emergency := true,
         error_message :=
           some "Payment has neither registration_id nor valid phone number" },
       s) := by
  simp [process_payment, hr, hp]

/-- Witness for C4's amended theorem on a concrete store. -/
theorem payment_no_identifiers_rejected_witness :
    optTruthy (none : Option String) = false ∧
    process_payment storeB ⟨"pay", none, none, none, none, none, none, []⟩ 9 =
      ({ success := false, registration_id := none, link_status := none,
         is_emergency := true,
         error_message :=
           some "Payment has neither registration_id nor valid phone number" },
       storeB) :=
  ⟨by decide,
   payment_no_identifiers_rejected storeB
     ⟨"pay", none, none, none, none, none, none, []⟩ 9 (by decide)
     (by decide)⟩

/-- C10: a payment claiming a `registration_id` that names no existing
registration never fails (`success = true`); with a truthy event id and
phone and exactly one `(event_id, phone_e164)` match it marks that
registration `matched_by_phone`, recording the unknown claimed id verbatim
in `payment_claimed_registration_id` (part of `MarkedPaidAt`); when the
phone branch cannot run or finds no match it returns the `orphan_payment`
emergency with no row mutated. -/
theorem payment_unknown_registration_id (s : Store) (p : ParsedPaymentData)
    (now : Nat) (hrid : optTruthy p.registration_id = true)
    (hmiss : getReg s (p.registration_id.getD "") = none) :
    (process_payment s p now).1.success = true ∧
    (∀ reg, optTruthy p.event_id = true → optTruthy p.phone_e164 = true →
      findByEventAndPhone s (p.event_id.getD "") (p.phone_e164.getD "")
        = [reg] →
      (process_payment s p now).1 =
        { success := true, registration_id := some reg.registration_id,
          link_status := some .matched_by_phone, is_emergency := false,
          error_message := none } ∧
      MarkedPaidAt (process_payment s p now).2 reg.registration_id p now
        "matched_by_phone") ∧
    ((optTruthy p.event_id = false ∨ optTruthy p.phone_e164 = false ∨
        findByEventAndPhone s (p.event_id.getD "") (p.phone_e164.getD "")
          = []) →
      (process_payment s p now).1 =
        { success := true, registration_id := none,
          link_status := some .orphan_payment, is_emergency := true,
          error_message := some "No matching registration found for payment" } ∧
      (process_payment s p now).2.regs = s.regs) := by
  have h1 : process_payment s p now = paymentPhoneStep s p now := by
    simp [process_payment, hrid, hmiss]
  refine ⟨by rw [h1]; exact paymentPhoneStep_success s p now, ?_, ?_⟩
  · intro reg he hp hm
    have h2 : paymentPhoneStep s p now =
        ({ success := true, registration_id := some reg.registration_id,
           link_status := some .matched_by_phone, is_emergency := false,
           error_message := none },
         logPaymentSubmission
           (markPaidStore s reg.registration_id p now .matched_by_phone) p) := by
      simp [paymentPhoneStep, he, hp, hm]
    rw [h1, h2]
    exact ⟨rfl,
      markedPaidAt_markPaidStore s reg.registration_id p now .matched_by_phone⟩
  · intro hc
    have h2 : paymentPhoneStep s p now = paymentOrphan s p := by
      rcases hc with hc | hc | hc
      · simp [paymentPhoneStep, hc]
      · simp [paymentPhoneStep, hc]
      · cases he2 : optTruthy p.event_id <;>
          cases hp2 : optTruthy p.phone_e164 <;>
          simp [paymentPhoneStep, he2, hp2, hc]
    rw [h1, h2]
    exact ⟨rfl, rfl⟩

/-- Witness for C10: `payPhone` claims the unknown id `"RX"` against
`storeB`, and its phone matches exactly `regR2`. -/
theorem payment_unknown_registration_id_witness :
    (process_payment storeB payPhone 6).1.success = true ∧
    (process_payment storeB payPhone 6).1 =
      { success := true, registration_id := some regR2.registration_id,
        link_status := some .matched_by_phone, is_emergency := false,
        error_message := none } ∧
    MarkedPaidAt (process_payment storeB payPhone 6).2 regR2.registration_id
      payPhone 6 "matched_by_phone" := by
  have T := payment_unknown_registration_id storeB payPhone 6 (by decide)
    (by decide)
  exact ⟨T.1, (T.2.1 regR2 (by decide) (by decide) (by decide)).1,
    (T.2.1 regR2 (by decide) (by decide) (by decide)).2⟩

/-- C5 counterexample: the claim fails for records missing an identifier.
With no `registration_id`, each application generates a fresh id, so two
applications of the same record create two registrations and the second
still reports `is_new = true`; with a `registration_id` but no `event_id`,
the second application overwrites `event_id` with a freshly generated
value, so the final field values differ between the applications. -/
theorem signup_idempotence_counterexample :
    ((process_signup
        (process_signup Store.empty
          ⟨"su", none, some "E1", none, none, none, none, none, [], none⟩
          "REG-A" "EVT-X" 7).2
        ⟨"su", none, some "E1", none, none, none, none, none, [], none⟩
        "REG-B" "EVT-Y" 7).2.regs.length = 2 ∧
     (process_signup
        (process_signup Store.empty
          ⟨"su", none, some "E1", none, none, none, none, none, [], none⟩
          "REG-A" "EVT-X" 7).2
        ⟨"su", none, some "E1", none, none, none, none, none, [], none⟩
        "REG-B" "EVT-Y" 7).1.is_new = true) ∧
    (process_signup
        (process_signup Store.empty
          ⟨"su", none, none, some "R1", none, none, none, none, [], none⟩
          "REG-A" "EVT-X" 7).2
        ⟨"su", none, none, some "R1", none, none, none, none, [], none⟩
        "REG-B" "EVT-Y" 7).2.regs ≠
      (process_signup Store.empty
          ⟨"su", none, none, some "R1", none, none, none, none, [], none⟩
          "REG-A" "EVT-X" 7).2.regs := by decide

/-- C5 (amended): for signup records whose `registration_id` and `event_id`
are both present, applying `process_signup` twice with the same timestamp
is idempotent on the registration table: the table after the second
application equals the table after the first, the second application
reports `is_new = false`, exactly one registration with the submitted id
remains, the payment-side fields of any pre-existing registration with that
id are unchanged, and rows with other ids are carried over untouched. -/
theorem signup_idempotent_spec (s : Store) (p : ParsedSignupData)
    (fr1 fe1 fr2 fe2 : String) (now : Nat)
    (hrid : optTruthy p.registration_id = true)
    (hev : optTruthy p.event_id = true)
    (hnd : (s.regs.map Registration.registration_id).Nodup) :
    (process_signup (process_signup s p fr1 fe1 now).2 p fr2 fe2 now).2.regs =
      (process_signup s p fr1 fe1 now).2.regs ∧
    (process_signup (process_signup s p fr1 fe1 now).2 p fr2 fe2 now).1.is_new
      = false ∧
    ((process_signup (process_signup s p fr1 fe1 now).2 p fr2 fe2
        now).2.regs.filter
      (fun r => r.registration_id == p.registration_id.getD "")).length = 1 ∧
    PaymentFieldsPreserved s
      (process_signup (process_signup s p fr1 fe1 now).2 p fr2 fe2 now).2
      (p.registration_id.getD "") ∧
    OthersUntouched s
      (process_signup (process_signup s p fr1 fe1 now).2 p fr2 fe2 now).2
      (p.registration_id.getD "") := by
  set rid := p.registration_id.getD "" with hrdef
  set e := p.event_id.getD "" with hedef
  set f := signupUpdate rid e p now with hfdef
  have hfid : ∀ x, (f x).registration_id = x.registration_id :=
    fun x => signupUpdate_registration_id rid e p now x
  cases hfind : getReg s rid with
  | some r0 =>
      have h1 := process_signup_update_shape s p fr1 fe1 now r0 hrid hev hfind
      have hs1regs : (process_signup s p fr1 fe1 now).2.regs = s.regs.map f := by
        rw [h1]; rfl
      have hfind2 : getReg (process_signup s p fr1 fe1 now).2 rid =
          some (f r0) := by
        show ((process_signup s p fr1 fe1 now).2.regs).find?
          (fun r => r.registration_id == rid) = some (f r0)
        rw [hs1regs, find?_map_signupUpdate]
        have hfind' : s.regs.find? (fun r => r.registration_id == rid) =
          some r0 := hfind
        rw [hfind']
        rfl
      have h2 := process_signup_update_shape (process_signup s p fr1 fe1 now).2
        p fr2 fe2 now (f r0) hrid hev hfind2
      have hs2regs :
          (process_signup (process_signup s p fr1 fe1 now).2 p fr2 fe2
            now).2.regs = s.regs.map f := by
        rw [h2]
        show ((process_signup s p fr1 fe1 now).2.regs).map f = s.regs.map f
        rw [hs1regs, List.map_map]
        exact List.map_congr_left fun x _ => signupUpdate_idem rid e p now x
      have hr0mem : r0 ∈ s.regs := List.mem_of_find?_eq_some hfind
      have hr0id : r0.registration_id = rid := by
        have hfind' : s.regs.find? (fun r => r.registration_id == rid) =
          some r0 := hfind
        have hb := List.find?_some hfind'
        exact eq_of_beq hb
      refine ⟨?_, ?_, ?_, ?_, ?_⟩
      · rw [hs2regs, hs1regs]
      · rw [h2]
      · rw [hs2regs, List.filter_map]
        have hq : ((fun r : Registration => r.registration_id == rid) ∘ f) =
            fun r => r.registration_id == rid := by
          funext x; simp [Function.comp, hfid]
        rw [hq, filter_id_singleton s.regs rid hnd r0 hr0mem hr0id]
        rfl
      · intro r hr hid r' hr' hid'
        rw [hs2regs] at hr'
        obtain ⟨x, hx, rfl⟩ := List.mem_map.1 hr'
        have hxid : x.registration_id = rid := by rw [← hfid x]; exact hid'
        have hxr : x = r :=
          List.inj_on_of_nodup_map hnd hx hr (by rw [hxid, hid])
        subst hxr
        exact signupUpdate_paymentFields rid e p now x
      · intro r' hr' hid'
        rw [hs2regs] at hr'
        obtain ⟨x, hx, rfl⟩ := List.mem_map.1 hr'
        have hxid : ¬ (x.registration_id == rid) = true := by
          intro hb
          exact hid' (by rw [hfid x]; exact eq_of_beq hb)
        have : f x = x := by
          rw [hfdef]; unfold signupUpdate; rw [if_neg hxid]
        rw [this]
        exact hx
  | none =>
      have h1 := process_signup_create_shape s p fr1 fe1 now hrid hev hfind
      have hs1regs : (process_signup s p fr1 fe1 now).2.regs =
          s.regs ++ [newRegOf rid e p now] := by
        rw [h1]; rfl
      have hnone : ∀ x ∈ s.regs, ¬ (x.registration_id == rid) = true :=
        List.find?_eq_none.1 hfind
      have hfind2 : getReg (process_signup s p fr1 fe1 now).2 rid =
          some (newRegOf rid e p now) := by
        show ((process_signup s p fr1 fe1 now).2.regs).find?
          (fun r => r.registration_id == rid) = some (newRegOf rid e p now)
        rw [hs1regs, List.find?_append]
        have hl : s.regs.find? (fun r => r.registration_id == rid) = none :=
          hfind
        rw [hl, Option.none_or]
        simp [newRegOf, List.find?]
      have h2 := process_signup_update_shape (process_signup s p fr1 fe1 now).2
        p fr2 fe2 now (newRegOf rid e p now) hrid hev hfind2
      have hfnew : f (newRegOf rid e p now) = newRegOf rid e p now := by
        rw [hfdef]
        simp [signupUpdate, newRegOf]
      have hmapid : s.regs.map f = s.regs := by
        have : ∀ x ∈ s.regs, f x = x := by
          intro x hx
          rw [hfdef]; unfold signupUpdate; rw [if_neg (hnone x hx)]
        calc s.regs.map f = s.regs.map id := List.map_congr_left this
        _ = s.regs := List.map_id s.regs
      have hs2regs :
          (process_signup (process_signup s p fr1 fe1 now).2 p fr2 fe2
            now).2.regs = s.regs ++ [newRegOf rid e p now] := by
        rw [h2]
        show ((process_signup s p fr1 fe1 now).2.regs).map f = _
        rw [hs1regs, List.map_append, hmapid]
        simp [hfnew]
      refine ⟨?_, ?_, ?_, ?_, ?_⟩
      · rw [hs2regs, hs1regs]
      · rw [h2]
      · rw [hs2regs, List.filter_append]
        have hl : s.regs.filter (fun r => r.registration_id == rid) = [] :=
          List.filter_eq_nil_iff.2 hnone
        rw [hl]
        simp [newRegOf]
      · intro r hr hid
        exact absurd (beq_iff_eq.2 hid) (by exact_mod_cast hnone r hr)
      · intro r' hr' hid'
        rw [hs2regs] at hr'
        rcases List.mem_append.1 hr' with hold | hnew
        · exact hold
        · simp only [List.mem_singleton] at hnew
          subst hnew
          exact absurd rfl hid'

/-- Witness for C5's amended theorem: `sigR1` (both identifiers present)
applied twice to `storeA`. -/
theorem signup_idempotent_spec_witness :
    optTruthy sigR1.registration_id = true ∧
    (process_signup (process_signup storeA sigR1 "RG1" "EG1" 7).2 sigR1
      "RG2" "EG2" 7).2.regs =
      (process_signup storeA sigR1 "RG1" "EG1" 7).2.regs ∧
    (process_signup (process_signup storeA sigR1 "RG1" "EG1" 7).2 sigR1
      "RG2" "EG2" 7).1.is_new = false ∧
    PaymentFieldsPreserved storeA
      (process_signup (process_signup storeA sigR1 "RG1" "EG1" 7).2 sigR1
        "RG2" "EG2" 7).2 (sigR1.registration_id.getD "") := by
  have T := signup_idempotent_spec storeA sigR1 "RG1" "EG1" "RG2" "EG2" 7
    (by decide) (by decide) (by decide)
  exact ⟨by decide, T.1, T.2.1, T.2.2.2.1⟩

/-- C6: divergence witness. Single-field extraction
(`extract_field_value`) finds a field that matches only by label, but
full-profile extraction (`extract_form_fields`) indexes the submitted
fields by key alone, so the very same field list leaves the attribute
absent — the documented label fallback is missing there. -/
theorem extract_form_fields_label_divergence :
    extract_field_value
      [⟨"question_other", "First time at Stranger Beers?", .vstr "Yes", "", []⟩]
      "first_time" FORM_FIELD_MAP = some "Yes" ∧
    (extract_form_fields
      [⟨"question_other", "First time at Stranger Beers?", .vstr "Yes", "",
        []⟩]).map (fun r => r.first_time) = .ok none := by decide

/-- C7: divergence witness. A `LINEAR_SCALE` field whose value is a
non-numeric string makes `extract_form_fields` raise (Python
`int("high")` throws `ValueError`), instead of degrading the `*_score`
attribute to absent. -/
theorem extract_form_fields_scale_raises :
    extract_form_fields
      [⟨"question_2NW67g", "creative expression", .vstr "high",
        "LINEAR_SCALE", []⟩] = .error "ValueError" := by decide

/-- C8: phone normalization is idempotent — whenever `normalize_phone`
returns a canonical value, normalizing that value again with the same
default region returns it unchanged — and empty or whitespace-only input
yields absent. The two hypotheses state the E.164 round-trip contract of
the external `phonenumbers` library: formatting a valid number yields a
non-empty whitespace-free string that parses back to the same number. -/
theorem normalize_phone_idempotent {α : Type}
    (parse : String → String → Option α) (isValidNumber : α → Bool)
    (formatE164 : α → String) (region x : String)
    (hround : ∀ q : α, isValidNumber q = true →
      parse (formatE164 q) region = some q)
    (hfmt : ∀ q : α, isValidNumber q = true →
      pyStrip (formatE164 q) = formatE164 q ∧ formatE164 q ≠ "") :
    (∀ y, normalize_phone parse isValidNumber formatE164 x region = some y →
      normalize_phone parse isValidNumber formatE164 y region = some y) ∧
    (pyStrip x = "" →
      normalize_phone parse isValidNumber formatE164 x region = none) := by
  constructor
  · intro y hy
    unfold normalize_phone at hy
    by_cases hx : (x = "" ∨ pyStrip x = "")
    · rw [if_pos hx] at hy; cases hy
    · rw [if_neg hx] at hy
      cases hp : parse (pyStrip x) region with
      | none => rw [hp] at hy; cases hy
      | some q =>
          rw [hp] at hy
          have hy2 : (if (!isValidNumber q) = true then none
              else some (formatE164 q)) = some y := hy
          by_cases hv : isValidNumber q = true
          · rw [hv] at hy2
            simp only [Bool.not_true, Bool.false_eq_true, if_false,
              Option.some.injEq] at hy2
            subst hy2
            have h1 := hfmt q hv
            have hne2 : ¬(formatE164 q = "" ∨ pyStrip (formatE164 q) = "") := by
              push_neg
              exact ⟨h1.2, by rw [h1.1]; exact h1.2⟩
            unfold normalize_phone
            rw [if_neg hne2, h1.1, hround q hv]
            show (if (!isValidNumber q) = true then none
              else some (formatE164 q)) = some (formatE164 q)
            rw [hv]
            simp
          · have hv2 : isValidNumber q = false := Bool.eq_false_iff.2 hv
            rw [hv2] at hy2
            simp at hy2
  · intro hx
    unfold normalize_phone
    rw [if_pos (Or.inr hx)]

/-- Witness for C8 on the concrete one-number `phonenumbers` instance:
re-normalizing the canonical output returns it unchanged, and whitespace
input is absent. -/
theorem normalize_phone_idempotent_witness :
    normalize_phone phoneParseC phoneValidC phoneFmtC "+14155551234" "US" =
      some "+14155551234" ∧
    normalize_phone phoneParseC phoneValidC phoneFmtC "   " "US" = none := by
  have T1 := normalize_phone_idempotent phoneParseC phoneValidC phoneFmtC
    "US" "+14155551234" (by decide) (by decide)
  have T2 := normalize_phone_idempotent phoneParseC phoneValidC phoneFmtC
    "US" "   " (by decide) (by decide)
  exact ⟨T1.1 "+14155551234" (by decide), T2.2 (by decide)⟩

/-- C9: with verification disabled the verifier always succeeds; with it
enabled and a known form kind, an unconfigured (empty) secret fails with
the misconfigured-secret reason, a missing (or empty) header fails with
the missing-signature reason, and otherwise the verifier succeeds exactly
when the header equals the digest of the raw body under the resolved
per-form-kind secret, failing with the invalid-signature reason on
mismatch. -/
theorem verify_signature_spec (st : VerifySettings)
    (hmacHex : List Nat → String → String) (body : List Nat)
    (hdr : Option String) (ft : String)
    (hft : ft = "signup" ∨ ft = "payment") :
    (st.verify_tally_signature = false →
      verify_tally_signature st hmacHex body hdr ft = (true, none)) ∧
    (st.verify_tally_signature = true →
      ((if ft = "signup" then st.tally_signup_secret
        else st.tally_payment_secret) = "" →
        verify_tally_signature st hmacHex body hdr ft =
          (false, some ("Signature verification enabled but no secret configured for "
            ++ ft ++ " form"))) ∧
      ((if ft = "signup" then st.tally_signup_secret
        else st.tally_payment_secret) ≠ "" → optTruthy hdr = false →
        verify_tally_signature st hmacHex body hdr ft =
          (false, some "Missing tally-signature header")) ∧
      (∀ hs : String, hdr = some hs → hs ≠ "" →
        (if ft = "signup" then st.tally_signup_secret
         else st.tally_payment_secret) ≠ "" →
        ((verify_tally_signature st hmacHex body hdr ft).1 = true ↔
          hs = hmacHex body (if ft = "signup" then st.tally_signup_secret
            else st.tally_payment_secret)) ∧
        (hs = hmacHex body (if ft = "signup" then st.tally_signup_secret
            else st.tally_payment_secret) →
          verify_tally_signature st hmacHex body hdr ft = (true, none)) ∧
        (hs ≠ hmacHex body (if ft = "signup" then st.tally_signup_secret
            else st.tally_payment_secret) →
          verify_tally_signature st hmacHex body hdr ft =
            (false, some "Invalid signature")))) := by
  rcases hft with rfl | rfl <;>
  · refine ⟨fun hoff => by simp [verify_tally_signature, hoff],
      fun hon => ⟨fun hsec => by simp_all [verify_tally_signature],
        fun hsec hhdr => ?_, fun hs hhs hne hsec => ?_⟩⟩
    · cases hdr with
      | none => simp_all [verify_tally_signature]
      | some hs =>
          simp only [optTruthy, bne_eq_false_iff_eq] at hhdr
          subst hhdr
          simp_all [verify_tally_signature]
    · subst hhs
      simp only [if_true, if_false] at hsec ⊢
      by_cases heq : hs = hmacHex body
        (if ("signup" : String) = "signup" then st.tally_signup_secret
         else st.tally_payment_secret) <;>
        by_cases heq2 : hs = hmacHex body
          (if ("payment" : String) = "signup" then st.tally_signup_secret
           else st.tally_payment_secret) <;>
        simp_all [verify_tally_signature]

/-- Witness for C9 on concrete settings, body, and digest function: all
five outcome shapes. -/
theorem verify_signature_spec_witness :
    verify_tally_signature ⟨false, "", ""⟩ hmacC [1, 2] none "signup" =
      (true, none) ∧
    verify_tally_signature ⟨true, "", "x"⟩ hmacC [1, 2] (some "a") "signup" =
      (false, some "Signature verification enabled but no secret configured for signup form") ∧
    verify_tally_signature ⟨true, "sek", "x"⟩ hmacC [1, 2] none "signup" =
      (false, some "Missing tally-signature header") ∧
    verify_tally_signature ⟨true, "sek", "x"⟩ hmacC [1, 2]
      (some (hmacC [1, 2] "sek")) "signup" = (true, none) ∧
    verify_tally_signature ⟨true, "sek", "x"⟩ hmacC [1, 2] (some "bad")
      "signup" = (false, some "Invalid signature") := by
  have T1 := verify_signature_spec ⟨false, "", ""⟩ hmacC [1, 2] none "signup"
    (Or.inl rfl)
  have T2 := verify_signature_spec ⟨true, "", "x"⟩ hmacC [1, 2] (some "a")
    "signup" (Or.inl rfl)
  have T3 := verify_signature_spec ⟨true, "sek", "x"⟩ hmacC [1, 2] none
    "signup" (Or.inl rfl)
  have T4 := verify_signature_spec ⟨true, "sek", "x"⟩ hmacC [1, 2]
    (some (hmacC [1, 2] "sek")) "signup" (Or.inl rfl)
  have T5 := verify_signature_spec ⟨true, "sek", "x"⟩ hmacC [1, 2]
    (some "bad") "signup" (Or.inl rfl)
  exact ⟨T1.1 rfl, (T2.2 rfl).1 (by decide),
    (T3.2 rfl).2.1 (by decide) (by decide),
    ((T4.2 rfl).2.2 (hmacC [1, 2] "sek") rfl (by decide) (by decide)).2.1 rfl,
    ((T5.2 rfl).2.2 "bad" rfl (by decide) (by decide)).2.2 (by decide)⟩

end StrangerBeers
